/-
Verification of the edition-acquisition core of the paper-ad-scan repository
(src/backend/scraper.py) via a shallow embedding in Lean 4.

Modelling conventions:
* machine strings are Lean `String`s; the handful of string operations the
  source uses (`str.endswith`, `str.lower`, `str.replace`, `Path(name).name`,
  `rsplit('.', 1)[0]`) are re-implemented structurally over `List Char` so
  that the kernel can evaluate them on concrete inputs;
* HTTP responses are a status code plus a byte list; network traffic is an
  oracle supplied as a function argument, and every function that performs
  network requests also returns the number of requests it made;
* the filesystem state for one (publication, date) pair is an
  `Option EditionDir` (the directory either exists with its artifacts or
  does not); page image files `page_NNN.png` are keyed by their numeric
  page number `NNN`;
* the unbounded `while True` probe loop of `_download_edition_replica` is
  given explicit fuel; running out of fuel yields `none`, so termination
  statements say that enough fuel yields `some`.
-/

import Mathlib

set_option maxHeartbeats 1000000
set_option maxRecDepth 4000

/-! ## String helpers (structural re-implementations of the Python string ops) -/

/-- Python `s.endswith(pat)`: suffix test on the character lists. -/
def strEndsWith (s pat : String) : Bool :=
  pat.data.isSuffixOf s.data

/-- ASCII lower-casing of one character, as Python `str.lower` acts on the
filenames involved here. -/
def lowerChar (c : Char) : Char :=
  if 'A' ≤ c && c ≤ 'Z' then Char.ofNat (c.toNat + 32) else c

/-- Python `s.lower()`. -/
def strToLower (s : String) : String :=
  ⟨s.data.map lowerChar⟩

/-- Left-to-right, non-overlapping replacement on character lists, with fuel
for structural recursion.  Mirrors Python `str.replace`. -/
def replaceAllAux (pat rep : List Char) : Nat → List Char → List Char
  | _, [] => []
  | 0, s => s
  | fuel + 1, c :: rest =>
    if pat.isPrefixOf (c :: rest) && !pat.isEmpty then
      rep ++ replaceAllAux pat rep fuel (rest.drop (pat.length - 1))
    else
      c :: replaceAllAux pat rep fuel rest

/-- Python `s.replace(pat, rep)` (every occurrence, left to right). -/
def strReplace (s pat rep : String) : String :=
  ⟨replaceAllAux pat.data rep.data s.data.length s.data⟩

/-- Python `Path(name).name`: the part of the path after the last `/`. -/
def baseName (s : String) : String :=
  ⟨(s.data.reverse.takeWhile (fun c => c != '/')).reverse⟩

/-- Python `s.rsplit('.', 1)[0]`: everything before the last dot, or the
whole string when it has no dot. -/
def stripLastExt (s : String) : String :=
  if s.data.contains '.' then
    ⟨((s.data.reverse.dropWhile (fun c => c != '.')).drop 1).reverse⟩
  else s

/-! ## Data model (scraper.py) -/

/-- Placeholder GIF size returned by get_image.aspx for non-existent pages
(scraper.py line 26). -/
def PLACEHOLDER_MAX_BYTES : Nat := 15000

/-- Body bytes of an HTTP response, or of a file. -/
abbrev Content := List Nat

/-- An HTTP response: status code and body. -/
structure Response where
  status : Nat
  content : Content
deriving Repr, DecidableEq

/-- One edition record as the scraper consumes it: `editionGuid` (probe
mode), `zip` and `editionLink` URLs (archive mode), display name.  Absent
JSON keys are `none` / `""` following the `.get` defaults in the source. -/
structure Edition where
  editionGuid : String
  name : String
  zip : Option String
  editionLink : Option String
deriving Repr, DecidableEq

/-- One element of the edition list: a date string (possibly absent) and the
list under the `editions` key. -/
structure EditionData where
  date : Option String
  editions : List Edition
deriving Repr, DecidableEq

/-- One entry of `page_map.json` (scraper.py lines 139-144 and 198-203).
The Python key `section` is spelled `sectionLabel` here because `section`
is a Lean keyword. -/
structure PageRecord where
  page_num : Nat
  sectionLabel : String
  hash : String
  pdf_name : String
deriving Repr, DecidableEq

/-- The manifest entries under `pages` in `edition.json`; `contenturl` and
`section` may be absent. -/
structure ManifestPage where
  contenturl : Option String
  sectionLabel : Option String
deriving Repr, DecidableEq

/-- The auxiliary manifest `edition.json`. -/
structure Manifest where
  pages : List ManifestPage
deriving Repr, DecidableEq

/-- The on-disk edition directory for one (publication, date):
`page_NNN.png` files keyed by page number, and the optional
`page_map.json`, `edition.json`, `metadata.json` artifacts. -/
structure EditionDir where
  pages : List (Nat × Content)
  page_map : Option (List PageRecord)
  edition_json : Option Manifest
  metadata : Option Edition
deriving Repr, DecidableEq

/-- Write (create or overwrite) the page image file for page `n`. -/
def writePage (pages : List (Nat × Content)) (n : Nat) (c : Content) :
    List (Nat × Content) :=
  if pages.any (fun p => p.1 == n) then
    pages.map (fun p => if p.1 == n then (n, c) else p)
  else pages ++ [(n, c)]

/-- The idempotency short-circuit used by both downloaders (scraper.py
lines 110 and 167): the directory exists and `glob("page_*.png")` is
non-empty.  It does not consult `page_map.json`. -/
def alreadyDownloaded : Option EditionDir → Bool
  | some d => !d.pages.isEmpty
  | none => false

/-- Result of a downloader call as seen by the caller: the directory path
(`dir`), Python `None` (`noneRes`), or a raised `requests.HTTPError`
(`fetchError`). -/
inductive PubResult
  | dir
  | noneRes
  | fetchError
deriving Repr, DecidableEq

/-! ## Probe-mode fetcher (`_download_edition_replica`, scraper.py 104-157) -/

/-- The `while True` probe loop (scraper.py lines 122-146), with fuel.
Returns the updated page files, the accumulated page map, and the number of
HTTP requests made; `none` when the fuel runs out before the loop breaks. -/
def probeLoop (img : Nat → Response) :
    Nat → Nat → List (Nat × Content) → List PageRecord →
    Option (List (Nat × Content) × List PageRecord × Nat)
  | 0, _, _, _ => none
  | fuel + 1, page_num, pages, page_map =>
    if (img page_num).status ≠ 200 then some (pages, page_map, 1)
    else if (img page_num).content.length < PLACEHOLDER_MAX_BYTES then
      some (pages, page_map, 1)
    else
      match probeLoop img fuel (page_num + 1)
          (writePage pages page_num (img page_num).content)
          (page_map ++ [⟨page_num, "Unknown", "", ""⟩]) with
      | none => none
      | some (ps, pm, c) => some (ps, pm, c + 1)

/-- `_download_edition_replica` (scraper.py lines 104-157): idempotency
short-circuit, GUID check, probe loop, then the `page_map.json` and
`metadata.json` writes.  Result: new filesystem state, returned value,
request count. -/
def download_edition_replica (edition : Edition) (fs : Option EditionDir)
    (img : Nat → Response) (fuel : Nat) :
    Option (Option EditionDir × PubResult × Nat) :=
  if alreadyDownloaded fs then some (fs, .dir, 0)
  else if edition.editionGuid = "" then some (fs, .noneRes, 0)
  else
    let d0 := fs.getD ⟨[], none, none, none⟩
    match probeLoop img fuel 1 d0.pages [] with
    | none => none
    | some (pages, pm, calls) =>
      some (some { d0 with pages := pages, page_map := some pm,
                           metadata := some edition }, .dir, calls)

/-! ## Edition index (`get_editions` / `find_edition_by_date`, scraper.py 41-95) -/

/-- Python truthiness of `self.editions_cache` (scraper.py line 43): the
cache is used only when it is set and non-empty. -/
def cacheTruthy : Option (List EditionData) → Bool
  | some (_ :: _) => true
  | _ => false

/-- `get_editions` (scraper.py lines 41-54): return the cached list when it
is truthy and no refresh is forced, otherwise fetch (one request) and cache.
Result: returned list, new cache, request count. -/
def get_editions (cache : Option (List EditionData)) (force_refresh : Bool)
    (netList : List EditionData) :
    List EditionData × Option (List EditionData) × Nat :=
  if cacheTruthy cache && !force_refresh then (cache.getD [], cache, 0)
  else (netList, some netList, 1)

/-- `find_edition_by_date` (scraper.py lines 86-95) on an already-fetched
edition list: first record whose `date` equals the query and whose
`editions` list is truthy contributes its first element. -/
def find_edition_by_date : List EditionData → String → Option Edition
  | [], _ => none
  | e :: rest, d =>
    if e.date = some d then
      match e.editions with
      | h0 :: _ => some h0
      | [] => find_edition_by_date rest d
    else find_edition_by_date rest d

/-! ## Archive-mode fetcher (`_download_edition_published`, scraper.py 159-236) -/

/-- Network oracle for one archive-mode acquisition: the response to the
ZIP GET, the entries of the downloaded ZIP (`namelist` with their bytes),
the outcome of the `editionLink` GET (`Except.error` for a raised
exception / non-success status / JSON failure, before anything is written),
and the outcome of `convert_from_bytes` per entry name (`some c` when
conversion succeeds with first rendered image `c`, `none` for a raised
conversion error or an empty image list). -/
structure ArchiveNet where
  zipResp : Response
  zipEntries : List (String × Content)
  manifest : Except Unit Manifest
  convert : String → Option Content

/-- The page-map construction from `edition.json` (scraper.py lines
193-203): enumerate all manifest pages, keep those whose `contenturl` ends
in `.pdf`, number them by original index + 1, and derive the
content-addressing key by deleting `.pdf` from the `contenturl`. -/
def buildPageMap (pages : List ManifestPage) : List PageRecord :=
  pages.enum.filterMap fun ip =>
    let content_url := ip.2.contenturl.getD ""
    if strEndsWith content_url ".pdf" then
      some ⟨ip.1 + 1, ip.2.sectionLabel.getD "Unknown",
        strReplace content_url ".pdf" "", content_url⟩
    else none

/-- The dict `hash_to_page` (scraper.py line 210); a later record with the
same hash overwrites an earlier one, hence the reversed search. -/
def hashToPage (pm : List PageRecord) (h : String) : Option Nat :=
  (pm.reverse.find? (fun p => p.hash == h)).map (·.page_num)

/-- The dict lookup `hash_to_section.get(hash_name, 'Unknown')`
(scraper.py lines 211 and 221). -/
def hashToSection (pm : List PageRecord) (h : String) : String :=
  ((pm.reverse.find? (fun p => p.hash == h)).map (·.sectionLabel)).getD "Unknown"

/-- The ZIP-walking loop (scraper.py lines 214-230): for each entry whose
lower-cased name ends in `.pdf` and whose base-filename key is in the
lookup table, attempt conversion and on success write the page file at the
resolved page number.  Returns the final page files and the names of the
entries for which conversion was attempted, in walk order. -/
def extractZip (pm : List PageRecord) (conv : String → Option Content) :
    List (String × Content) → List (Nat × Content) →
    List (Nat × Content) × List String
  | [], pages => (pages, [])
  | (name, _) :: rest, pages =>
    let hash_name := stripLastExt (baseName name)
    if strEndsWith (strToLower name) ".pdf" && (hashToPage pm hash_name).isSome then
      let page_num := (hashToPage pm hash_name).getD 0
      let res :=
        match conv name with
        | some c => extractZip pm conv rest (writePage pages page_num c)
        | none => extractZip pm conv rest pages
      (res.1, name :: res.2)
    else extractZip pm conv rest pages

/-- `_download_edition_published` (scraper.py lines 159-236): idempotency
short-circuit, ZIP URL check, ZIP download with `raise_for_status`
(statuses ≥ 400 raise), directory creation, manifest fetch inside a
`try`/`except` (on failure neither `edition.json` nor `page_map.json` is
written and `page_map` stays empty), ZIP walk, `metadata.json` write.
Result: new filesystem state, returned value, request count. -/
def download_edition_published (edition : Edition) (fs : Option EditionDir)
    (net : ArchiveNet) : Option EditionDir × PubResult × Nat :=
  if alreadyDownloaded fs then (fs, .dir, 0)
  else
    match edition.zip with
    | none => (fs, .noneRes, 0)
    | some _ =>
      if 400 ≤ net.zipResp.status then (fs, .fetchError, 1)
      else
        let d0 := fs.getD ⟨[], none, none, none⟩
        let step :=
          match edition.editionLink with
          | none => (d0, ([] : List PageRecord), 0)
          | some _ =>
            match net.manifest with
            | .error _ => (d0, [], 1)
            | .ok m =>
              let pm := buildPageMap m.pages
              ({ d0 with edition_json := some m, page_map := some pm }, pm, 1)
        let pages := (extractZip step.2.1 net.convert net.zipEntries step.1.pages).1
        (some { step.1 with pages := pages, metadata := some edition },
          .dir, 1 + step.2.2)

/-! ## Acquisition orchestrator (`get_page_images`, scraper.py 238-253) -/

/-- Operating mode of a publication (`api_type` in the config). -/
inductive Mode
  | replica
  | published
deriving Repr, DecidableEq

/-- All network oracles one `get_page_images` call may consult. -/
structure Net where
  editionsList : List EditionData
  img : Nat → Response
  archive : ArchiveNet

/-- Mutable per-scraper state: the editions cache (scraper.py line 39) and
the edition directory for the queried date. -/
structure SState where
  editions_cache : Option (List EditionData)
  fs : Option EditionDir
deriving Repr, DecidableEq

/-- What a `get_page_images` call produces for the caller: an ordered image
list, or a propagated fetch exception. -/
inductive GPIResult
  | images (l : List Nat)
  | fetchError
deriving Repr, DecidableEq

/-- `download_edition` (scraper.py lines 97-102): dispatch on `api_type`. -/
def download_edition (mode : Mode) (ed : Edition) (fs : Option EditionDir)
    (net : Net) (fuel : Nat) : Option (Option EditionDir × PubResult × Nat) :=
  match mode with
  | .replica => download_edition_replica ed fs net.img fuel
  | .published => some (download_edition_published ed fs net.archive)

/-- `glob("page_*.png")` of a directory state, as the list of page-number
keys in on-disk order. -/
def dirPages : Option EditionDir → List (Nat × Content)
  | some d => d.pages
  | none => []

/-- The defensive re-sort in `get_page_images` (scraper.py lines 249-252):
sort the globbed files by the numeric page number parsed from the
filename. -/
def sortPages (pages : List (Nat × Content)) : List Nat :=
  List.insertionSort (· ≤ ·) (pages.map Prod.fst)

/-- The image list `get_page_images` returns for a directory state. -/
def imagesOf (fs : Option EditionDir) : List Nat :=
  sortPages (dirPages fs)

/-- Combine a downloader outcome with the orchestrator's post-processing
(scraper.py lines 245-253). -/
def gpiFinish (res : Option (Option EditionDir × PubResult × Nat))
    (cache1 : Option (List EditionData)) (c1 : Nat) :
    Option (GPIResult × SState × Nat) :=
  match res with
  | none => none
  | some (fs2, .dir, c2) => some (.images (imagesOf fs2), ⟨cache1, fs2⟩, c1 + c2)
  | some (fs2, .noneRes, c2) => some (.images [], ⟨cache1, fs2⟩, c1 + c2)
  | some (fs2, .fetchError, c2) => some (.fetchError, ⟨cache1, fs2⟩, c1 + c2)

/-- `get_page_images` (scraper.py lines 238-253) for a date already
formatted as `YYYY-MM-DD`: resolve the date through the (cached) edition
list, dispatch the download, glob and sort.  Result: outcome, new scraper
state, total request count; `none` when the probe fuel runs out. -/
def get_page_images (mode : Mode) (st : SState) (net : Net) (date : String)
    (fuel : Nat) : Option (GPIResult × SState × Nat) :=
  match find_edition_by_date
      (get_editions st.editions_cache false net.editionsList).1 date with
  | none =>
    some (.images [],
      ⟨(get_editions st.editions_cache false net.editionsList).2.1, st.fs⟩,
      (get_editions st.editions_cache false net.editionsList).2.2)
  | some ed =>
    gpiFinish (download_edition mode ed st.fs net fuel)
      (get_editions st.editions_cache false net.editionsList).2.1
      (get_editions st.editions_cache false net.editionsList).2.2

/-! ## Derived descriptions of the loops, used in the theorem statements -/

/-- The page files after a probe run that saves pages
`start, start+1, …, start+n-1`. -/
def probeWrites (img : Nat → Response) (start n : Nat)
    (pages : List (Nat × Content)) : List (Nat × Content) :=
  (List.range' start n).foldl (fun ps k => writePage ps k (img k).content) pages

/-- The page map after a probe run that saves pages
`start, start+1, …, start+n-1`. -/
def probeRecords (start n : Nat) : List PageRecord :=
  (List.range' start n).map fun k => ⟨k, "Unknown", "", ""⟩

/-- The claim's notion of a gap-free page sequence: the sorted page numbers
are exactly `1, 2, …, length`. -/
def contiguousFrom1 (l : List Nat) : Prop :=
  l = List.range' 1 l.length

/-! ## Concrete scenarios used by the claim theorems and witnesses -/

/-- An edition directory left by a probe run interrupted after writing
`page_001..page_005` but before writing `page_map.json`. -/
def truncatedDir : EditionDir :=
  ⟨[(1, [0]), (2, [0]), (3, [0]), (4, [0]), (5, [0])], none, none, none⟩

/-- A probe-mode edition with a non-empty GUID. -/
def edW : Edition := ⟨"guid-w", "Probe Test", none, none⟩

/-- A real-page-sized response body (exactly the placeholder threshold). -/
def bigContent : Content := List.replicate PLACEHOLDER_MAX_BYTES 0

/-- A probe image endpoint with two real pages followed by placeholder-sized
bodies forever. -/
def imgW : Nat → Response :=
  fun k => if k ≤ 2 then ⟨200, bigContent⟩ else ⟨200, [0]⟩

/-- An archive-mode edition whose ZIP URL is present but whose download
fails. -/
def edX : Edition := ⟨"", "AJC", some "https://x/edition.zip", none⟩

/-- Archive network where the ZIP GET returns 404. -/
def netX : ArchiveNet := ⟨⟨404, []⟩, [], .ok ⟨[]⟩, fun _ => none⟩

/-- An archive-mode edition with both a ZIP URL and a manifest link. -/
def edJ : Edition :=
  ⟨"", "AJC", some "https://x/edition.zip", some "https://x/edition.json"⟩

/-- Archive network where the ZIP succeeds but the manifest fetch raises. -/
def netJ : ArchiveNet := ⟨⟨200, [1]⟩, [("abc.pdf", [1])], .error (), fun _ => some [9]⟩

/-- The two-page manifest of the content-addressing scenario. -/
def m4 : Manifest := ⟨[⟨some "abc.pdf", some "News"⟩, ⟨some "def.pdf", some "Sports"⟩]⟩

/-- The page map derived from `m4`. -/
def pm4 : List PageRecord :=
  [⟨1, "News", "abc", "abc.pdf"⟩, ⟨2, "Sports", "def", "def.pdf"⟩]

/-- Archive network for the content-addressing scenario: manifest `m4`,
archive entries `abc.pdf` and `xyz.pdf`, conversion always succeeding. -/
def net4 : ArchiveNet :=
  ⟨⟨200, [1, 2]⟩, [("abc.pdf", [1]), ("xyz.pdf", [2])], .ok m4, fun _ => some [7]⟩

/-- An edition-list record with one edition, for cache scenarios. -/
def d8 : EditionData := ⟨some "2026-01-26", [⟨"", "E", none, none⟩]⟩

/-- A record whose date matches but whose `editions` list is empty. -/
def dEmptyEditions : EditionData := ⟨some "2026-01-26", []⟩

/-- An archive-mode edition for the gap scenario. -/
def ed5 : Edition := ⟨"", "AJC", some "https://x/e.zip", some "https://x/e.json"⟩

/-- Three-page manifest for the gap scenario. -/
def m5 : Manifest :=
  ⟨[⟨some "abc.pdf", some "News"⟩, ⟨some "def.pdf", some "Sports"⟩,
    ⟨some "ghi.pdf", some "Local"⟩]⟩

/-- Full network state for the gap scenario: all three documents are in the
archive, but conversion of `def.pdf` (page 2) fails. -/
def net5 : Net :=
  ⟨[⟨some "2026-01-26", [ed5]⟩], fun _ => ⟨404, []⟩,
    ⟨⟨200, [1]⟩, [("abc.pdf", [1]), ("def.pdf", [2]), ("ghi.pdf", [3])], .ok m5,
      fun n => if n = "def.pdf" then none else some [7]⟩⟩

/-- The page map derived from `m5`. -/
def pm5 : List PageRecord :=
  [⟨1, "News", "abc", "abc.pdf"⟩, ⟨2, "Sports", "def", "def.pdf"⟩,
   ⟨3, "Local", "ghi", "ghi.pdf"⟩]

/-- The edition directory left by the gap scenario: pages 1 and 3 only. -/
def dir5 : EditionDir := ⟨[(1, [7]), (3, [7])], some pm5, some m5, some ed5⟩

/-- A probe-mode network with two real pages, for orchestrator witnesses. -/
def netP : Net :=
  ⟨[⟨some "2026-01-01", [edW]⟩], imgW, ⟨⟨200, []⟩, [], .ok ⟨[]⟩, fun _ => none⟩⟩

/-- Archive network for the count-mismatch scenario: one manifest page,
one matching archive entry, conversion failing. -/
def anet7 : ArchiveNet :=
  ⟨⟨200, [1]⟩, [("abc.pdf", [1])], .ok ⟨[⟨some "abc.pdf", some "News"⟩]⟩,
    fun _ => none⟩

/-- The directory the count-mismatch scenario produces: a one-record page
map but zero page images. -/
def dir7 : EditionDir :=
  ⟨[], some [⟨1, "News", "abc", "abc.pdf"⟩],
    some ⟨[⟨some "abc.pdf", some "News"⟩]⟩, some edJ⟩

/-- A pre-existing one-page edition directory. -/
def dirW : EditionDir := ⟨[(1, [5])], some [⟨1, "Unknown", "", ""⟩], none, none⟩

/-- A probe-mode edition whose probe finds zero pages. -/
def edG : Edition := ⟨"g", "T", none, none⟩

/-- Network for the zero-page probe scenario: every image response is
placeholder-sized. -/
def netC6 : Net :=
  ⟨[⟨some "2026-01-01", [edG]⟩], fun _ => ⟨200, []⟩,
    ⟨⟨200, []⟩, [], .error (), fun _ => none⟩⟩

/-- Scraper state after the zero-page probe run: directory with an empty
page map and no images, editions cached. -/
def stC6 : SState :=
  ⟨some [⟨some "2026-01-01", [edG]⟩], some ⟨[], some [], none, some edG⟩⟩

/-- Archive-mode orchestrator network for the idempotency witness: the
content-addressing scenario behind an edition list. -/
def netA : Net := ⟨[⟨some "2026-01-26", [edJ]⟩], fun _ => ⟨404, []⟩, net4⟩

/-- The directory the `netA` scenario materializes. -/
def dirA : EditionDir := ⟨[(1, [7])], some pm4, some m4, some edJ⟩

/-- Scraper state after the first `netA` acquisition. -/
def stA1 : SState := ⟨some [⟨some "2026-01-26", [edJ]⟩], some dirA⟩

/-! ## Helper lemmas -/

theorem writePage_of_not_mem (pages : List (Nat × Content)) (n : Nat) (c : Content)
    (h : ∀ p ∈ pages, p.1 ≠ n) : writePage pages n c = pages ++ [(n, c)] := by
  have hany : pages.any (fun p => p.1 == n) = false := by
    simp only [List.any_eq_false]
    intro p hp
    simpa using h p hp
  simp [writePage, hany]

theorem probeWrites_zero (img : Nat → Response) (start : Nat)
    (pages : List (Nat × Content)) : probeWrites img start 0 pages = pages := rfl

theorem probeWrites_succ (img : Nat → Response) (start n : Nat)
    (pages : List (Nat × Content)) :
    probeWrites img start (n + 1) pages =
      probeWrites img (start + 1) n (writePage pages start (img start).content) := by
  simp [probeWrites, List.range'_succ]

theorem probeRecords_succ (start n : Nat) :
    probeRecords start (n + 1) =
      (⟨start, "Unknown", "", ""⟩ : PageRecord) :: probeRecords (start + 1) n := by
  simp [probeRecords, List.range'_succ]

theorem probeLoop_spec (img : Nat → Response) :
    ∀ (N start fuel : Nat) (pages : List (Nat × Content)) (pm : List PageRecord),
      (∀ k, start ≤ k → k < start + N →
        (img k).status = 200 ∧ PLACEHOLDER_MAX_BYTES ≤ (img k).content.length) →
      ((img (start + N)).status ≠ 200 ∨
        (img (start + N)).content.length < PLACEHOLDER_MAX_BYTES) →
      probeLoop img (fuel + N + 1) start pages pm =
        some (probeWrites img start N pages, pm ++ probeRecords start N, N + 1) := by
  intro N
  induction N with
  | zero =>
    intro start fuel pages pm _ hbad
    show probeLoop img (fuel + 1) start pages pm = _
    rw [probeLoop]
    by_cases hs : (img start).status ≠ 200
    · rw [if_pos hs]
      simp [probeWrites, probeRecords]
    · rw [if_neg hs]
      have hlen : (img start).content.length < PLACEHOLDER_MAX_BYTES := by
        rcases hbad with h | h
        · exact absurd h hs
        · exact h
      rw [if_pos hlen]
      simp [probeWrites, probeRecords]
  | succ n ih =>
    intro start fuel pages pm hgood hbad
    have hg : (img start).status = 200 ∧
        PLACEHOLDER_MAX_BYTES ≤ (img start).content.length :=
      hgood start (Nat.le_refl _) (by omega)
    show probeLoop img (fuel + n + 1 + 1) start pages pm = _
    rw [probeLoop]
    have hs : ¬ (img start).status ≠ 200 := by simp [hg.1]
    have hl : ¬ (img start).content.length < PLACEHOLDER_MAX_BYTES := by
      omega
    rw [if_neg hs, if_neg hl]
    have hrec := ih (start + 1) fuel
      (writePage pages start (img start).content)
      (pm ++ [⟨start, "Unknown", "", ""⟩])
      (fun k h1 h2 => hgood k (by omega) (by omega))
      (by have : start + 1 + n = start + (n + 1) := by omega
          rw [this]; exact hbad)
    rw [hrec]
    rw [probeWrites_succ, probeRecords_succ]
    simp

theorem probeWrites_map_fst (img : Nat → Response) :
    ∀ (N start : Nat) (pages : List (Nat × Content)),
      (∀ p ∈ pages, p.1 < start) →
      (probeWrites img start N pages).map Prod.fst =
        pages.map Prod.fst ++ List.range' start N := by
  intro N
  induction N with
  | zero => intro start pages _; simp [probeWrites]
  | succ n ih =>
    intro start pages hlt
    rw [probeWrites_succ]
    have hw : writePage pages start (img start).content =
        pages ++ [(start, (img start).content)] :=
      writePage_of_not_mem _ _ _ (fun p hp => Nat.ne_of_lt (hlt p hp))
    have hbound : ∀ p ∈ pages ++ [(start, (img start).content)], p.1 < start + 1 := by
      intro p hp
      rcases List.mem_append.1 hp with h | h
      · exact Nat.lt_succ_of_lt (hlt p h)
      · rw [List.mem_singleton] at h
        subst h
        exact Nat.lt_succ_self start
    rw [hw, ih (start + 1) (pages ++ [(start, (img start).content)]) hbound]
    simp [List.range'_succ]

theorem probeRecords_length (start n : Nat) : (probeRecords start n).length = n := by
  simp [probeRecords]

theorem sorted_range' (s n : Nat) : (List.range' s n).Sorted (· ≤ ·) :=
  (List.pairwise_lt_range' s n).imp Nat.le_of_lt

theorem sortPages_probeWrites (img : Nat → Response) (N : Nat) :
    sortPages (probeWrites img 1 N []) = List.range' 1 N := by
  unfold sortPages
  rw [probeWrites_map_fst img N 1 [] (by simp)]
  simp [(sorted_range' 1 N).insertionSort_eq]

theorem sortPages_sorted (pages : List (Nat × Content)) :
    (sortPages pages).Sorted (· ≤ ·) :=
  List.sorted_insertionSort _ _

theorem sortPages_length (pages : List (Nat × Content)) :
    (sortPages pages).length = pages.length := by
  unfold sortPages
  rw [(List.perm_insertionSort _ _).length_eq]
  simp

theorem imagesOf_ne_nil {fs : Option EditionDir} (h : imagesOf fs ≠ []) :
    ∃ d, fs = some d ∧ d.pages ≠ [] := by
  match fs with
  | none => simp [imagesOf, dirPages, sortPages] at h
  | some d =>
    refine ⟨d, rfl, ?_⟩
    intro hnil
    apply h
    simp [imagesOf, dirPages, sortPages, hnil]

theorem download_replica_shortcircuit (ed : Edition) (fs : Option EditionDir)
    (img : Nat → Response) (fuel : Nat) (h : alreadyDownloaded fs = true) :
    download_edition_replica ed fs img fuel = some (fs, .dir, 0) := by
  simp [download_edition_replica, h]

theorem download_published_shortcircuit (ed : Edition) (fs : Option EditionDir)
    (net : ArchiveNet) (h : alreadyDownloaded fs = true) :
    download_edition_published ed fs net = (fs, .dir, 0) := by
  simp [download_edition_published, h]

theorem download_edition_shortcircuit (mode : Mode) (ed : Edition)
    (fs : Option EditionDir) (net : Net) (fuel : Nat)
    (h : alreadyDownloaded fs = true) :
    download_edition mode ed fs net fuel = some (fs, .dir, 0) := by
  cases mode
  · exact download_replica_shortcircuit ed fs net.img fuel h
  · simp [download_edition, download_published_shortcircuit ed fs net.archive h]

theorem download_replica_run (ed : Edition) (img : Nat → Response) (N fuel : Nat)
    (hguid : ed.editionGuid ≠ "")
    (hgood : ∀ k, k < 1 + N → 1 ≤ k →
      (img k).status = 200 ∧ PLACEHOLDER_MAX_BYTES ≤ (img k).content.length)
    (hbad : ∀ k, 1 + N ≤ k →
      (img k).status ≠ 200 ∨ (img k).content.length < PLACEHOLDER_MAX_BYTES)
    (hfuel : N + 1 ≤ fuel) :
    download_edition_replica ed none img fuel =
      some (some ⟨probeWrites img 1 N [], some (probeRecords 1 N), none, some ed⟩,
        .dir, N + 1) := by
  obtain ⟨f, rfl⟩ : ∃ f, fuel = f + N + 1 := ⟨fuel - (N + 1), by omega⟩
  have hspec := probeLoop_spec img N 1 f [] []
    (fun k h1 h2 => hgood k (by omega) h1)
    (hbad (1 + N) (Nat.le_refl _))
  simp [download_edition_replica, alreadyDownloaded, hguid, hspec]

theorem get_editions_cache_hit (l netL : List EditionData) (hl : l ≠ []) :
    get_editions (some l) false netL = (l, some l, 0) := by
  match l, hl with
  | a :: rest, _ => rfl

theorem find_edition_ne_nil {l : List EditionData} {d : String} {e : Edition}
    (h : find_edition_by_date l d = some e) : l ≠ [] := by
  intro hnil
  subst hnil
  simp [find_edition_by_date] at h

theorem extractZip_empty_pm (conv : String → Option Content) :
    ∀ (entries : List (String × Content)) (pages : List (Nat × Content)),
      extractZip [] conv entries pages = (pages, []) := by
  intro entries
  induction entries with
  | nil => intro pages; rfl
  | cons e rest ih =>
    intro pages
    obtain ⟨name, data⟩ := e
    simp [extractZip, hashToPage, ih]

theorem extractZip_attempted (pm : List PageRecord) (conv : String → Option Content) :
    ∀ (entries : List (String × Content)) (pages : List (Nat × Content)),
      (extractZip pm conv entries pages).2 =
        (entries.map Prod.fst).filter
          (fun n => strEndsWith (strToLower n) ".pdf" &&
            (hashToPage pm (stripLastExt (baseName n))).isSome) := by
  intro entries
  induction entries with
  | nil => intro pages; rfl
  | cons e rest ih =>
    intro pages
    obtain ⟨name, data⟩ := e
    by_cases hc : (strEndsWith (strToLower name) ".pdf" &&
        (hashToPage pm (stripLastExt (baseName name))).isSome) = true
    · cases hconv : conv name with
      | some c => simp [extractZip, hc, hconv, ih]
      | none => simp [extractZip, hc, hconv, ih]
    · simp [extractZip, hc, ih]

/-- C1: the claim says that a directory containing page images but no
page-map artifact must be treated as incomplete, so the idempotency
short-circuit must not fire.  The source checks only
`edition_dir.glob("page_*.png")` (scraper.py lines 110 and 167): on a
directory with `page_001..page_005` and no `page_map.json`, both
downloaders short-circuit with zero network requests and return the
truncated directory unchanged, contradicting the claim (a code bug
relative to the spec, which calls the manifest-based check a required
correction). -/
theorem completeness_check_ignores_page_map (ed : Edition) (img : Nat → Response)
    (fuel : Nat) (anet : ArchiveNet) :
    download_edition_replica ed (some truncatedDir) img fuel =
        some (some truncatedDir, .dir, 0)
    ∧ download_edition_published ed (some truncatedDir) anet =
        (some truncatedDir, .dir, 0)
    ∧ truncatedDir.page_map = none :=
  ⟨rfl, rfl, rfl⟩

/-- C2: probe-mode termination.  Against an image endpoint whose pages
`1..N` are HTTP 200 with bodies at least the placeholder threshold and
whose responses from `N+1` on are non-200 or placeholder-sized, the probe
fetch (with any sufficient fuel) terminates after exactly `N+1` requests,
saving exactly the page images `page_001..page_NNN` (page numbers
`1, …, N`) and a page map with one record per page. -/
theorem probe_mode_saves_exactly_n (ed : Edition) (img : Nat → Response)
    (N fuel : Nat) (hguid : ed.editionGuid ≠ "")
    (hgood : ∀ k, k < 1 + N → 1 ≤ k →
      (img k).status = 200 ∧ PLACEHOLDER_MAX_BYTES ≤ (img k).content.length)
    (hbad : ∀ k, 1 + N ≤ k →
      (img k).status ≠ 200 ∨ (img k).content.length < PLACEHOLDER_MAX_BYTES)
    (hfuel : N + 1 ≤ fuel) :
    download_edition_replica ed none img fuel =
      some (some ⟨probeWrites img 1 N [], some (probeRecords 1 N), none, some ed⟩,
        .dir, N + 1)
    ∧ (probeWrites img 1 N []).map Prod.fst = List.range' 1 N :=
  ⟨download_replica_run ed img N fuel hguid hgood hbad hfuel,
   probeWrites_map_fst img N 1 [] (by simp)⟩

/-- Witness for C2 at `N = 2`: two real pages then placeholders forever. -/
theorem probe_mode_saves_exactly_n_witness :
    download_edition_replica edW none imgW 3 =
      some (some ⟨probeWrites imgW 1 2 [], some (probeRecords 1 2), none, some edW⟩,
        .dir, 3)
    ∧ (probeWrites imgW 1 2 []).map Prod.fst = List.range' 1 2 :=
  probe_mode_saves_exactly_n edW imgW 2 3 (by decide)
    (fun k h1 h2 => by
      have hk2 : k ≤ 2 := by omega
      simp [imgW, hk2, bigContent])
    (fun k hk => Or.inr (by
      have h2 : ¬ k ≤ 2 := by omega
      simp only [imgW, if_neg h2]
      decide))
    (by decide)

/-- C10: archive-mode atomicity on fatal download failure.  When the
directory is not already materialized, the handle has a ZIP URL, and the
ZIP GET returns a non-success status (≥ 400), `_download_edition_published`
raises the fetch error after exactly one request and the filesystem state
for that (publication, date) is unchanged: no directory, pages, page map or
metadata are created. -/
theorem archive_download_failure_atomic (ed : Edition) (fs : Option EditionDir)
    (net : ArchiveNet) (z : String)
    (hnd : alreadyDownloaded fs = false)
    (hz : ed.zip = some z)
    (hstatus : 400 ≤ net.zipResp.status) :
    download_edition_published ed fs net = (fs, .fetchError, 1) := by
  simp [download_edition_published, hnd, hz, hstatus]

/-- Witness for C10: a 404 on the ZIP download leaves no directory. -/
theorem archive_download_failure_atomic_witness :
    download_edition_published edX none netX = (none, .fetchError, 1) :=
  archive_download_failure_atomic edX none netX "https://x/edition.zip" rfl rfl
    (by decide)

/-- C3 counterexample: with the ZIP downloaded and the manifest fetch
failing, the acquisition does finish (no abort), but the resulting
directory has `page_map = none` — no page-map artifact at all — because the
`page_map.json` write sits inside the failed `try` block (scraper.py lines
186-207).  This refutes the claim's "empty-but-present page-map artifact". -/
theorem manifest_failure_omits_page_map_cex :
    download_edition_published edJ none netJ =
      (some ⟨[], none, none, some edJ⟩, .dir, 2)
    ∧ (⟨[], none, none, some edJ⟩ : EditionDir).page_map = none :=
  ⟨by decide, rfl⟩

/-- C3 amended: a manifest fetch failure is non-fatal — the acquisition
still returns the edition directory (rather than propagating the error) and
still walks the archive, but with an empty lookup table no entry matches,
so no page is converted, and no page-map artifact is written at all (only
`metadata.json` is); the page-map artifact is absent, not empty-but-present. -/
theorem manifest_failure_nonfatal_no_page_map (ed : Edition) (net : ArchiveNet)
    (z l : String) (e : Unit)
    (hz : ed.zip = some z) (hl : ed.editionLink = some l)
    (hm : net.manifest = .error e) (hstatus : net.zipResp.status < 400) :
    download_edition_published ed none net =
      (some ⟨[], none, none, some ed⟩, .dir, 2) := by
  have hns : ¬ 400 ≤ net.zipResp.status := by omega
  simp [download_edition_published, alreadyDownloaded, hz, hl, hm, hns,
    extractZip_empty_pm]

/-- Witness for the amended C3 on the concrete failing-manifest scenario. -/
theorem manifest_failure_nonfatal_no_page_map_witness :
    download_edition_published edJ none netJ =
      (some ⟨[], none, none, some edJ⟩, .dir, 2) :=
  manifest_failure_nonfatal_no_page_map edJ netJ "https://x/edition.zip"
    "https://x/edition.json" () rfl rfl rfl (by decide)

/-- C4: content-addressing correctness.  In the concrete scenario (manifest
pages `abc.pdf`/News and `def.pdf`/Sports; archive entries `abc.pdf` and
`xyz.pdf`; conversion succeeding) exactly `abc.pdf` is converted and
written as `page_001`, the page map tags page 1 with section "News", and
`xyz.pdf` is skipped silently.  In general, conversion is attempted for an
archive entry iff its lower-cased name ends in `.pdf` and its
base-filename-derived key is present in the manifest lookup table. -/
theorem content_addressing_conversion :
    download_edition_published edJ none net4 =
      (some ⟨[(1, [7])], some pm4, some m4, some edJ⟩, .dir, 2)
    ∧ (extractZip pm4 net4.convert net4.zipEntries []).2 = ["abc.pdf"]
    ∧ ∀ (pm : List PageRecord) (conv : String → Option Content)
        (entries : List (String × Content)) (pages : List (Nat × Content)),
        (extractZip pm conv entries pages).2 =
          (entries.map Prod.fst).filter
            (fun n => strEndsWith (strToLower n) ".pdf" &&
              (hashToPage pm (stripLastExt (baseName n))).isSome) :=
  ⟨by decide, by decide,
   fun pm conv entries pages => extractZip_attempted pm conv entries pages⟩

/-- C8 counterexample: when the first lookup returned an empty list (cached
as `some []`), a subsequent call with `forceRefresh = false` does not
return the cached list without network traffic — Python truthiness treats
the cached empty list as unpopulated, so the call re-fetches (one request),
refuting the claim's "for any list the first call returned (including an
empty list)". -/
theorem empty_cache_refetch_cex :
    get_editions (some []) false [d8] = ([d8], some [d8], 1) ∧ (1 : Nat) ≠ 0 :=
  ⟨rfl, by decide⟩

/-- C8 amended: the edition cache is keyed per scraper instance; a call
with `forceRefresh = false` returns the cached list with zero requests
whenever the cached list is non-empty; an unpopulated cache and a cached
empty list both trigger a fresh one-request fetch that repopulates the
cache, as does `forceRefresh = true`. -/
theorem editions_cache_lifecycle (l netL : List EditionData)
    (cache : Option (List EditionData)) (hl : l ≠ []) :
    get_editions (some l) false netL = (l, some l, 0)
    ∧ get_editions none false netL = (netL, some netL, 1)
    ∧ get_editions (some []) false netL = (netL, some netL, 1)
    ∧ get_editions cache true netL = (netL, some netL, 1) := by
  refine ⟨get_editions_cache_hit l netL hl, rfl, rfl, ?_⟩
  simp [get_editions]

/-- Witness for the amended C8 on concrete caches. -/
theorem editions_cache_lifecycle_witness :
    get_editions (some [d8]) false [] = ([d8], some [d8], 0)
    ∧ get_editions none false [] = ([], some [], 1)
    ∧ get_editions (some []) false [] = ([], some [], 1)
    ∧ get_editions (some [d8]) true [] = ([], some [], 1) :=
  editions_cache_lifecycle [d8] [] (some [d8]) (by decide)

/-- C9 counterexample: an edition list that does contain a record whose
date equals the query — but with an empty `editions` list — makes
`find_edition_by_date` return `none`, not a handle drawn from that record,
refuting the claim's first half as stated. -/
theorem matching_date_empty_editions_cex :
    find_edition_by_date [dEmptyEditions] "2026-01-26" = none
    ∧ dEmptyEditions.date = some "2026-01-26" :=
  ⟨by decide, rfl⟩

/-- C9 amended: `find_edition_by_date` returns the first element of the
`editions` list of the first record whose date equals the query and whose
`editions` list is non-empty; when no such record exists (in particular
when no record carries the queried date) it returns `none`, and being a
total function it never throws.  Records with a matching date but an empty
`editions` list are passed over. -/
theorem find_edition_resolution (l : List EditionData) (d : String) :
    find_edition_by_date l d =
      (l.find? (fun e => (e.date == some d) && !e.editions.isEmpty)).bind
        (fun e => e.editions.head?) := by
  induction l with
  | nil => rfl
  | cons e rest ih =>
    by_cases hd : e.date = some d
    · cases hed : e.editions with
      | nil => simp [find_edition_by_date, List.find?, hd, hed, ih]
      | cons h0 t => simp [find_edition_by_date, List.find?, hd, hed]
    · have hbeq : (e.date == some d) = false := by
        simp [hd]
      simp [find_edition_by_date, List.find?, hd, hbeq, ih]

/-- C5 counterexample: with a valid date, a resolvable edition and an
archive-mode per-entry conversion failure on page 2, `get_page_images`
returns page numbers `[1, 3]` — sorted, but not a contiguous run starting
at 1 — refuting the claim's "no gaps ... including when per-entry
conversion failures occurred". -/
theorem page_numbers_gap_cex :
    get_page_images .published ⟨none, none⟩ net5 "2026-01-26" 0 =
      some (.images [1, 3], ⟨some net5.editionsList, some dir5⟩, 3)
    ∧ ¬ contiguousFrom1 [1, 3] :=
  ⟨by decide, fun h => absurd (show [1, 3] = List.range' 1 2 from h) (by decide)⟩

/-- C5 amended: `get_page_images` always returns the page numbers sorted
ascending (the defensive re-sort), and in probe mode from a fresh directory
the returned page numbers are exactly `1, …, N` — a contiguous duplicate-free
run starting at 1; in archive mode contiguity can fail when per-entry
conversion fails (see the counterexample). -/
theorem page_images_sorted_and_probe_contiguous :
    (∀ (mode : Mode) (st : SState) (net : Net) (date : String) (fuel : Nat)
        (l : List Nat) (st2 : SState) (c : Nat),
        get_page_images mode st net date fuel = some (.images l, st2, c) →
        l.Sorted (· ≤ ·))
    ∧ (∀ (net : Net) (date : String) (ed : Edition) (N fuel : Nat),
        find_edition_by_date net.editionsList date = some ed →
        ed.editionGuid ≠ "" →
        (∀ k, k < 1 + N → 1 ≤ k → (net.img k).status = 200 ∧
          PLACEHOLDER_MAX_BYTES ≤ (net.img k).content.length) →
        (∀ k, 1 + N ≤ k → (net.img k).status ≠ 200 ∨
          (net.img k).content.length < PLACEHOLDER_MAX_BYTES) →
        N + 1 ≤ fuel →
        get_page_images .replica ⟨none, none⟩ net date fuel =
          some (.images (List.range' 1 N),
            ⟨some net.editionsList,
              some ⟨probeWrites net.img 1 N [], some (probeRecords 1 N), none,
                some ed⟩⟩,
            N + 2)
        ∧ contiguousFrom1 (List.range' 1 N)) := by
  constructor
  · intro mode st net date fuel l st2 c h
    rcases hfind : find_edition_by_date
        (get_editions st.editions_cache false net.editionsList).1 date with _ | ed
    · simp only [get_page_images, hfind, Option.some.injEq, Prod.mk.injEq,
        GPIResult.images.injEq] at h
      obtain ⟨h1, -⟩ := h
      rw [← h1]
      exact List.sorted_nil
    · simp only [get_page_images, hfind] at h
      rcases hdl : download_edition mode ed st.fs net fuel with _ | ⟨fs2, pr, c2⟩
      · rw [hdl] at h
        simp [gpiFinish] at h
      · rw [hdl] at h
        cases pr with
        | dir =>
          simp only [gpiFinish, Option.some.injEq, Prod.mk.injEq,
            GPIResult.images.injEq] at h
          obtain ⟨h1, -⟩ := h
          rw [← h1]
          exact sortPages_sorted (dirPages fs2)
        | noneRes =>
          simp only [gpiFinish, Option.some.injEq, Prod.mk.injEq,
            GPIResult.images.injEq] at h
          obtain ⟨h1, -⟩ := h
          rw [← h1]
          exact List.sorted_nil
        | fetchError =>
          simp [gpiFinish] at h
  · intro net date ed N fuel hfind hguid hgood hbad hfuel
    have hrun := download_replica_run ed net.img N fuel hguid hgood hbad hfuel
    have himg : imagesOf (some ⟨probeWrites net.img 1 N [],
        some (probeRecords 1 N), none, some ed⟩) = List.range' 1 N := by
      simp only [imagesOf, dirPages]
      exact sortPages_probeWrites net.img N
    constructor
    · simp only [get_page_images]
      rw [show (get_editions (⟨none, none⟩ : SState).editions_cache false
          net.editionsList) = (net.editionsList, some net.editionsList, 1) from rfl]
      simp only [hfind, download_edition, gpiFinish, hrun, himg]
      rw [show (1 : Nat) + (N + 1) = N + 2 from by omega]
    · show List.range' 1 N = List.range' 1 (List.range' 1 N).length
      rw [List.length_range']

/-- Witness for the amended C5: the sortedness half applied to the gap
scenario, and the probe-contiguity half applied to a two-page probe run. -/
theorem page_images_sorted_and_probe_contiguous_witness :
    ([1, 3] : List Nat).Sorted (· ≤ ·)
    ∧ (get_page_images .replica ⟨none, none⟩ netP "2026-01-01" 3 =
        some (.images (List.range' 1 2),
          ⟨some netP.editionsList,
            some ⟨probeWrites netP.img 1 2 [], some (probeRecords 1 2), none,
              some edW⟩⟩, 4)
       ∧ contiguousFrom1 (List.range' 1 2)) :=
  ⟨page_images_sorted_and_probe_contiguous.1 .published ⟨none, none⟩ net5
      "2026-01-26" 0 [1, 3] ⟨some net5.editionsList, some dir5⟩ 3 (by decide),
   page_images_sorted_and_probe_contiguous.2 netP "2026-01-01" edW 2 3
      (by decide) (by decide)
      (fun k h1 h2 => by
        have hk2 : k ≤ 2 := by omega
        show (imgW k).status = 200 ∧ PLACEHOLDER_MAX_BYTES ≤ (imgW k).content.length
        simp [imgW, hk2, bigContent])
      (fun k hk => Or.inr (by
        have h2 : ¬ k ≤ 2 := by omega
        show (imgW k).content.length < PLACEHOLDER_MAX_BYTES
        simp only [imgW, if_neg h2]
        decide))
      (by decide)⟩

/-- C7 counterexample: a completed archive-mode fetch whose single
conversion failed leaves a directory whose page-map artifact exists and is
non-empty (one record) while the directory holds zero page images, and the
directory is *not* treated as complete (the short-circuit looks at images,
not the page map) — refuting both halves of the claimed invariant. -/
theorem page_map_image_count_cex :
    download_edition_published edJ none anet7 = (some dir7, .dir, 2)
    ∧ dir7.page_map = some [⟨1, "News", "abc", "abc.pdf"⟩]
    ∧ dir7.pages.length = 0
    ∧ alreadyDownloaded (some dir7) = false :=
  ⟨by decide, rfl, rfl, by decide⟩

/-- C7 amended: in probe mode a completed fetch writes exactly as many page
images as page-map records (the counts agree), and — in both modes — a
directory is treated as complete (re-acquisition skipped with zero
requests) exactly on the strength of containing at least one page image,
independently of the page-map artifact; in archive mode conversion
failures can leave fewer images than page-map records (see
counterexample). -/
theorem completeness_probe_invariant (ed : Edition) (img : Nat → Response)
    (N fuel : Nat) (hguid : ed.editionGuid ≠ "")
    (hgood : ∀ k, k < 1 + N → 1 ≤ k →
      (img k).status = 200 ∧ PLACEHOLDER_MAX_BYTES ≤ (img k).content.length)
    (hbad : ∀ k, 1 + N ≤ k →
      (img k).status ≠ 200 ∨ (img k).content.length < PLACEHOLDER_MAX_BYTES)
    (hfuel : N + 1 ≤ fuel) :
    (download_edition_replica ed none img fuel =
      some (some ⟨probeWrites img 1 N [], some (probeRecords 1 N), none, some ed⟩,
        .dir, N + 1)
     ∧ (probeWrites img 1 N []).length = (probeRecords 1 N).length)
    ∧ ∀ (ed2 : Edition) (fs : Option EditionDir) (net2 : ArchiveNet)
        (img2 : Nat → Response) (fuel2 : Nat),
        alreadyDownloaded fs = true →
        download_edition_replica ed2 fs img2 fuel2 = some (fs, .dir, 0)
        ∧ download_edition_published ed2 fs net2 = (fs, .dir, 0) := by
  refine ⟨⟨download_replica_run ed img N fuel hguid hgood hbad hfuel, ?_⟩, ?_⟩
  · have hlen : (probeWrites img 1 N []).length = N := by
      have hm := congrArg List.length (probeWrites_map_fst img N 1 [] (by simp))
      simpa using hm
    rw [hlen, probeRecords_length]
  · intro ed2 fs net2 img2 fuel2 hfs
    exact ⟨download_replica_shortcircuit ed2 fs img2 fuel2 hfs,
      download_published_shortcircuit ed2 fs net2 hfs⟩

/-- Witness for the amended C7 at the two-page probe run and a concrete
non-empty directory. -/
theorem completeness_probe_invariant_witness :
    (download_edition_replica edW none imgW 3 =
      some (some ⟨probeWrites imgW 1 2 [], some (probeRecords 1 2), none, some edW⟩,
        .dir, 3)
     ∧ (probeWrites imgW 1 2 []).length = (probeRecords 1 2).length)
    ∧ (download_edition_replica edW (some dirW) imgW 3 = some (some dirW, .dir, 0)
       ∧ download_edition_published edW (some dirW) anet7 = (some dirW, .dir, 0)) :=
  ⟨(completeness_probe_invariant edW imgW 2 3 (by decide)
      (fun k h1 h2 => by
        have hk2 : k ≤ 2 := by omega
        simp [imgW, hk2, bigContent])
      (fun k hk => Or.inr (by
        have h2 : ¬ k ≤ 2 := by omega
        simp only [imgW, if_neg h2]
        decide))
      (by decide)).1,
   (completeness_probe_invariant edW imgW 2 3 (by decide)
      (fun k h1 h2 => by
        have hk2 : k ≤ 2 := by omega
        simp [imgW, hk2, bigContent])
      (fun k hk => Or.inr (by
        have h2 : ¬ k ≤ 2 := by omega
        simp only [imgW, if_neg h2]
        decide))
      (by decide)).2 edW (some dirW) anet7 imgW 3 (by decide)⟩

/-- C6 counterexample: for a resolvable date whose probe run saves zero
pages, the first `get_page_images` call materializes the directory (2
requests), yet the second call in the same process still performs 1 network
request — the image-presence short-circuit does not fire on an empty page
set — refuting the claim that the second invocation always performs zero
network calls. -/
theorem second_invocation_network_cex :
    get_page_images .replica ⟨none, none⟩ netC6 "2026-01-01" 1 =
      some (.images [], stC6, 2)
    ∧ get_page_images .replica stC6 netC6 "2026-01-01" 1 =
      some (.images [], stC6, 1)
    ∧ (1 : Nat) ≠ 0 :=
  ⟨by decide, by decide, by decide⟩

/-- C6 amended: when a first `get_page_images` call in a fresh process
(empty editions cache) returns a non-empty image list, a second call for
the same (publication, date) without deleting the directory performs zero
network requests — the editions cache and the image-presence short-circuit
suppress all HTTP traffic — and returns the identical ordered image list
with the state unchanged.  (When the first call materializes zero images,
the second call re-downloads; see the counterexample.) -/
theorem acquisition_idempotent_after_nonempty (mode : Mode) (st0 : SState)
    (net : Net) (date : String) (fuel : Nat) (l : List Nat) (st1 : SState)
    (c1 : Nat) (hcache : st0.editions_cache = none)
    (h1 : get_page_images mode st0 net date fuel = some (.images l, st1, c1))
    (hne : l ≠ []) :
    get_page_images mode st1 net date fuel = some (.images l, st1, 0) := by
  have e1 : (get_editions st0.editions_cache false net.editionsList).1 =
      net.editionsList := by rw [hcache]; rfl
  have e2 : (get_editions st0.editions_cache false net.editionsList).2.1 =
      some net.editionsList := by rw [hcache]; rfl
  rcases hfind : find_edition_by_date net.editionsList date with _ | ed
  · simp only [get_page_images, e1, e2, hfind, Option.some.injEq, Prod.mk.injEq,
      GPIResult.images.injEq] at h1
    exact absurd h1.1.symm hne
  · simp only [get_page_images, e1, e2, hfind] at h1
    rcases hdl : download_edition mode ed st0.fs net fuel with _ | ⟨fs2, pr, c2⟩
    · rw [hdl] at h1
      simp [gpiFinish] at h1
    · rw [hdl] at h1
      cases pr with
      | fetchError => simp [gpiFinish] at h1
      | noneRes =>
        simp only [gpiFinish, Option.some.injEq, Prod.mk.injEq,
          GPIResult.images.injEq] at h1
        exact absurd h1.1.symm hne
      | dir =>
        simp only [gpiFinish, Option.some.injEq, Prod.mk.injEq,
          GPIResult.images.injEq] at h1
        obtain ⟨himg, hst, -⟩ := h1
        have hnetL : net.editionsList ≠ [] := find_edition_ne_nil hfind
        have hineq : imagesOf fs2 ≠ [] := by rw [himg]; exact hne
        obtain ⟨d2, rfl, hp⟩ := imagesOf_ne_nil hineq
        have halready : alreadyDownloaded (some d2) = true := by
          simp [alreadyDownloaded, hp]
        subst hst
        have f1 : (get_editions (some net.editionsList) false
            net.editionsList).1 = net.editionsList := by
          rw [get_editions_cache_hit _ _ hnetL]
        have f2 : (get_editions (some net.editionsList) false
            net.editionsList).2.1 = some net.editionsList := by
          rw [get_editions_cache_hit _ _ hnetL]
        have f3 : (get_editions (some net.editionsList) false
            net.editionsList).2.2 = 0 := by
          rw [get_editions_cache_hit _ _ hnetL]
        simp only [get_page_images, f1, f2, f3, hfind,
          download_edition_shortcircuit mode ed (some d2) net fuel halready,
          gpiFinish, himg]

/-- Witness for the amended C6: after a first call that saved one page, the
second call performs zero requests and returns the same list. -/
theorem acquisition_idempotent_after_nonempty_witness :
    get_page_images .published stA1 netA "2026-01-26" 0 =
      some (.images [1], stA1, 0) :=
  acquisition_idempotent_after_nonempty .published ⟨none, none⟩ netA "2026-01-26"
    0 [1] stA1 3 rfl (by decide) (by decide)
